import Mathlib

/-!
Verification of the browser-based visual GUI designer of the
Juce-Project-Manager-and-Initializer repository.

The embedding follows the JavaScript sources:
  src/Tools/PluginManagerWebApp/js/components.js  (component model, factory, renderer helpers)
  src/Tools/PluginManagerWebApp/js/utils.js       (color conversion helpers)
  src/unnamed/part_003                            (AudioPluginApp canvas/session controller)

JavaScript numbers are modelled as rationals; every rational is finite, so the
Number.isFinite guards of the source are identically true in this model.
Strings are Lean strings.  The insertion-ordered Map of the session is a list
of key/value pairs in insertion order.
-/

/-- Kind-specific extra fields added by the subclasses of Component in
components.js.  The base class adds none of them. -/
inductive Extras where
  | none : Extras
  | slider (sliderColor thumbColor : String) : Extras
  | knob (knobColor pointerColor : String) : Extras
  | button (pressed : Bool) : Extras
  | toggle (toggledColor : String) (toggled : Bool) : Extras
  | label (borderColor alignment : String) : Extras
  | textbox (borderColor placeholder : String) : Extras
  | meter (meterColor peakColor : String) (level : ℚ) : Extras
  | combobox (borderColor : String) (options : List String) (selectedIndex : ℕ) : Extras
  deriving Repr, DecidableEq

/-- The Component class of components.js: base fields assigned in the
constructor, plus the kind-specific extras of the subclass (Extras.none for
the base class itself). -/
structure Component where
  id : String
  type : String
  x : ℚ
  y : ℚ
  width : ℚ
  height : ℚ
  text : String
  color : String
  textColor : String
  fontSize : ℚ
  minValue : ℚ
  maxValue : ℚ
  defaultValue : ℚ
  visible : Bool
  enabled : Bool
  extras : Extras
  deriving Repr, DecidableEq

/-- The base Component constructor of components.js:
constructor(id, type, x, y, width = 80, height = 30) with its default field
values (text = type, color CCCCCC, textColor 000000, fontSize 12,
minValue 0, maxValue 1, defaultValue 0.5, visible, enabled). -/
def baseComponent (id type : String) (x y width height : ℚ) : Component :=
  { id := id, type := type, x := x, y := y, width := width, height := height,
    text := type, color := "#CCCCCC", textColor := "#000000", fontSize := 12,
    minValue := 0, maxValue := 1, defaultValue := 1/2,
    visible := true, enabled := true, extras := Extras.none }

/-- The HorizontalSlider subclass constructor of components.js. -/
def HorizontalSlider (id : String) (x y : ℚ) : Component :=
  { baseComponent id "horizontalslider" x y 120 20 with
    text := "Slider", color := "#E9ECEF",
    extras := Extras.slider "#0078D4" "#FFFFFF" }

/-- The VerticalSlider subclass constructor of components.js. -/
def VerticalSlider (id : String) (x y : ℚ) : Component :=
  { baseComponent id "verticalslider" x y 20 120 with
    text := "Slider", color := "#E9ECEF",
    extras := Extras.slider "#0078D4" "#FFFFFF" }

/-- The Knob subclass constructor of components.js. -/
def Knob (id : String) (x y : ℚ) : Component :=
  { baseComponent id "knob" x y 60 60 with
    text := "Knob", color := "#F8F9FA",
    extras := Extras.knob "#0078D4" "#0078D4" }

/-- The Button subclass constructor of components.js. -/
def Button (id : String) (x y : ℚ) : Component :=
  { baseComponent id "button" x y 80 30 with
    text := "Button", color := "#28A745", textColor := "#FFFFFF",
    extras := Extras.button false }

/-- The Toggle subclass constructor of components.js. -/
def Toggle (id : String) (x y : ℚ) : Component :=
  { baseComponent id "toggle" x y 50 25 with
    text := "Toggle", color := "#6C757D",
    extras := Extras.toggle "#28A745" false }

/-- The Label subclass constructor of components.js. -/
def Label (id : String) (x y : ℚ) : Component :=
  { baseComponent id "label" x y 80 20 with
    text := "Label", color := "transparent",
    extras := Extras.label "#DEE2E6" "center" }

/-- The TextBox subclass constructor of components.js. -/
def TextBox (id : String) (x y : ℚ) : Component :=
  { baseComponent id "textbox" x y 100 25 with
    text := "Text", color := "#FFFFFF",
    extras := Extras.textbox "#0078D4" "Enter text..." }

/-- The Meter subclass constructor of components.js. -/
def Meter (id : String) (x y : ℚ) : Component :=
  { baseComponent id "meter" x y 20 100 with
    text := "Meter", color := "#333333",
    extras := Extras.meter "#44FF44" "#FF4444" (7/10) }

/-- The ComboBox subclass constructor of components.js. -/
def ComboBox (id : String) (x y : ℚ) : Component :=
  { baseComponent id "combobox" x y 120 25 with
    text := "ComboBox", color := "#FFFFFF",
    extras := Extras.combobox "#0078D4" ["Option 1", "Option 2", "Option 3"] 0 }

/-- ComponentFactory.createComponent of components.js: the switch over the
nine known type tags, falling through to the base Component constructor for
an unknown tag (a console warning only, never a failure). -/
def createComponent (type id : String) (x y : ℚ) : Component :=
  if type = "horizontalslider" then HorizontalSlider id x y
  else if type = "verticalslider" then VerticalSlider id x y
  else if type = "knob" then Knob id x y
  else if type = "button" then Button id x y
  else if type = "toggle" then Toggle id x y
  else if type = "label" then Label id x y
  else if type = "textbox" then TextBox id x y
  else if type = "meter" then Meter id x y
  else if type = "combobox" then ComboBox id x y
  else baseComponent id type x y 80 30

/-- ComponentFactory.getDefaultSize of components.js, returning the width and
height pair for a type tag. -/
def getDefaultSize (type : String) : ℚ × ℚ :=
  if type = "horizontalslider" then (120, 20)
  else if type = "verticalslider" then (20, 120)
  else if type = "knob" then (60, 60)
  else if type = "button" then (80, 30)
  else if type = "toggle" then (50, 25)
  else if type = "label" then (80, 20)
  else if type = "textbox" then (100, 25)
  else if type = "meter" then (20, 100)
  else if type = "combobox" then (120, 25)
  else (80, 30)

/-- ComponentFactory.getSupportedTypes of components.js. -/
def getSupportedTypes : List String :=
  ["horizontalslider", "verticalslider", "knob", "button", "toggle",
   "label", "textbox", "meter", "combobox"]

/-- ComponentRenderer.normalizeValue of components.js.  In the rational model
every number is finite, so both Number.isFinite guards of the source hold
identically and only the range check remains. -/
def normalizeValue (value min max : ℚ) : ℚ :=
  let range := max - min
  if range ≤ 0 then 0
  else
    let normalized := (value - min) / range
    Min.min (Max.max normalized 0) 1

/-- The guiProperties record initialized in the AudioPluginApp constructor of
part_003 (canvas width/height, background color, plugin name and vendor). -/
structure GuiProperties where
  width : ℚ
  height : ℚ
  backgroundColor : String
  pluginName : String
  pluginManufacturer : String
  deriving Repr, DecidableEq

/-- The default guiProperties values of the AudioPluginApp constructor. -/
def defaultGuiProperties : GuiProperties :=
  { width := 400, height := 300, backgroundColor := "#DDDDDD",
    pluginName := "My Audio Plugin", pluginManufacturer := "MyCompany" }

/-- The session state of AudioPluginApp: the insertion-ordered component map
(this.components, a JavaScript Map, modelled as a key/value list in insertion
order) and the selected component id (this.selectedComponent, null when
nothing is selected). -/
structure Session where
  components : List (String × Component)
  selectedComponent : Option String
  deriving Repr, DecidableEq

/-- The pointer-to-canvas coordinate conversion used throughout part_003:
(e.clientX - rect.left) / this.zoomLevel. -/
def pointerToCanvas (zoom client rectEdge : ℚ) : ℚ :=
  (client - rectEdge) / zoom

/-- The containment test of the click loop in onCanvasClick:
x >= c.x && x <= c.x + c.width && y >= c.y && y <= c.y + c.height. -/
def hitTest (c : Component) (x y : ℚ) : Bool :=
  decide (c.x ≤ x ∧ x ≤ c.x + c.width ∧ c.y ≤ y ∧ y ≤ c.y + c.height)

/-- The component-search loop of onCanvasClick in part_003: it walks the map
entries in insertion order and breaks at the first component containing the
point. -/
def firstHitComponent (comps : List (String × Component)) (x y : ℚ) :
    Option String :=
  match comps with
  | [] => none
  | (id, c) :: rest =>
      if hitTest c x y then some id else firstHitComponent rest x y

/-- AudioPluginApp.onCanvasClick of part_003, restricted to its effect on the
selection: converts the pointer position by the zoom factor, finds the first
component containing it, selects that id, or clears the selection when the
click hits empty canvas. -/
def onCanvasClick (s : Session) (zoom clientX clientY rectLeft rectTop : ℚ) :
    Session :=
  let x := pointerToCanvas zoom clientX rectLeft
  let y := pointerToCanvas zoom clientY rectTop
  match firstHitComponent s.components x y with
  | some id => { s with selectedComponent := some id }
  | none => { s with selectedComponent := none }

/-- AudioPluginApp.onCanvasMouseMove of part_003, restricted to its effect on
the dragged component: new position is the converted pointer position minus
the recorded drag offset, clamped to
[0, width - c.width] x [0, height - c.height]. -/
def onCanvasMouseMove (props : GuiProperties) (dragOffset : ℚ × ℚ)
    (zoom clientX clientY rectLeft rectTop : ℚ) (c : Component) : Component :=
  let x := pointerToCanvas zoom clientX rectLeft
  let y := pointerToCanvas zoom clientY rectTop
  { c with
    x := Max.max 0 (Min.min (props.width - c.width) (x - dragOffset.1)),
    y := Max.max 0 (Min.min (props.height - c.height) (y - dragOffset.2)) }

/-- The Delete branch of AudioPluginApp.handleKeyboard in part_003: when a
component is selected, delete its map entry and clear the selection. -/
def handleKeyboardDelete (s : Session) : Session :=
  match s.selectedComponent with
  | some id =>
      { components := s.components.filter (fun p => p.1 != id),
        selectedComponent := none }
  | none => s

/-- AudioPluginApp.clearCanvas of part_003: when the map is non-empty the app
asks for confirmation and, if confirmed, clears the map and the selection. -/
def clearCanvas (s : Session) (confirmed : Bool) : Session :=
  if 0 < s.components.length then
    if confirmed then { components := [], selectedComponent := none } else s
  else s

/-- AudioPluginApp.updateCanvasSize of part_003.  The two inputs are the
parseInt results of the width and height fields: none stands for NaN
(non-numeric input).  The JavaScript guard (width && height && width >= 200
&& height >= 150) needs both values truthy (not NaN, not 0) and above the
minimum bounds before it overwrites guiProperties. -/
def updateCanvasSize (props : GuiProperties)
    (widthInput heightInput : Option ℤ) : GuiProperties :=
  match widthInput, heightInput with
  | some width, some height =>
      if width ≠ 0 ∧ height ≠ 0 ∧ 200 ≤ width ∧ 150 ≤ height then
        { props with width := (width : ℚ), height := (height : ℚ) }
      else props
  | _, _ => props

/-- Math.round for the rational model: floor of q + 1/2, matching the
JavaScript round-half-toward-positive-infinity rule. -/
def jsRound (q : ℚ) : ℤ :=
  ⌊q + 1/2⌋

/-- AudioPluginApp.addComponentAtPosition of part_003: rounds the position,
invokes the factory, inserts the component into the map under its fresh id,
and auto-selects it (selectComponent). -/
def addComponentAtPosition (s : Session) (type id : String) (x y : ℚ) :
    Session :=
  let component := createComponent type id ((jsRound x : ℤ) : ℚ) ((jsRound y : ℤ) : ℚ)
  { components := s.components ++ [(id, component)],
    selectedComponent := some id }

/-- The drop position computed by AudioPluginApp.onCanvasDrop of part_003:
x = max(0, min(width - 50, (clientX - rect.left) / zoom)) and
y = max(0, min(height - 30, (clientY - rect.top) / zoom)), with the fixed
margins 50 and 30. -/
def onCanvasDropPosition (props : GuiProperties)
    (zoom clientX clientY rectLeft rectTop : ℚ) : ℚ × ℚ :=
  (Max.max 0 (Min.min (props.width - 50) (pointerToCanvas zoom clientX rectLeft)),
   Max.max 0 (Min.min (props.height - 30) (pointerToCanvas zoom clientY rectTop)))

/-- AudioPluginApp.onCanvasDrop of part_003: a drop without a type tag is a
no-op; otherwise the clamped drop position is passed to
addComponentAtPosition. -/
def onCanvasDrop (s : Session) (props : GuiProperties)
    (componentType id : String)
    (zoom clientX clientY rectLeft rectTop : ℚ) : Session :=
  if componentType = "" then s
  else
    let pos := onCanvasDropPosition props zoom clientX clientY rectLeft rectTop
    addComponentAtPosition s componentType id pos.1 pos.2

/-- The pointer angle computed by ComponentRenderer.renderKnob of
components.js, represented by its coefficient of pi: the source computes
norm * Math.PI * 1.5 - Math.PI * 0.75, which is (norm * 3/2 - 3/4) times pi. -/
def renderKnobAngle (comp : Component) : ℚ :=
  normalizeValue comp.defaultValue comp.minValue comp.maxValue * (3/2) - 3/4

/-- Modelled from the spec: FileManager is not among the repository sources
(only its caller AudioPluginApp.updateExportOutput is), so the persisted
entry of the structured-interchange document follows section 6 of the spec:
id, type, x, y, width, height, text, color, textColor, fontSize, minValue,
maxValue, defaultValue, plus kind-specific fields, in insertion order. -/
structure ComponentJson where
  id : String
  type : String
  x : ℚ
  y : ℚ
  width : ℚ
  height : ℚ
  text : String
  color : String
  textColor : String
  fontSize : ℚ
  minValue : ℚ
  maxValue : ℚ
  defaultValue : ℚ
  visible : Bool
  enabled : Bool
  extras : Extras
  deriving Repr, DecidableEq

/-- Modelled from the spec: the entry written for one descriptor, carrying
every persisted descriptor field. -/
def componentToJson (c : Component) : ComponentJson :=
  { id := c.id, type := c.type, x := c.x, y := c.y,
    width := c.width, height := c.height, text := c.text,
    color := c.color, textColor := c.textColor, fontSize := c.fontSize,
    minValue := c.minValue, maxValue := c.maxValue,
    defaultValue := c.defaultValue, visible := c.visible,
    enabled := c.enabled, extras := c.extras }

/-- Modelled from the spec: reconstructing one descriptor from its persisted
entry. -/
def jsonToComponent (r : ComponentJson) : Component :=
  { id := r.id, type := r.type, x := r.x, y := r.y,
    width := r.width, height := r.height, text := r.text,
    color := r.color, textColor := r.textColor, fontSize := r.fontSize,
    minValue := r.minValue, maxValue := r.maxValue,
    defaultValue := r.defaultValue, visible := r.visible,
    enabled := r.enabled, extras := r.extras }

/-- Modelled from the spec: the root of the persisted layout document, with
the canvas configuration as a root attribute and one entry per descriptor in
insertion order. -/
structure LayoutDoc where
  canvas : GuiProperties
  components : List ComponentJson
  deriving Repr, DecidableEq

/-- Modelled from the spec: FileManager.exportToJSON as invoked by
AudioPluginApp.updateExportOutput on (this.components, this.guiProperties). -/
def exportToJSON (components : List (String × Component))
    (props : GuiProperties) : LayoutDoc :=
  { canvas := props, components := components.map (fun p => componentToJson p.2) }

/-- Modelled from the spec: re-parsing the persisted layout document and
reconstructing the session map (keyed by the stored ids, in document order)
and the canvas configuration. -/
def importFromJSON (doc : LayoutDoc) :
    List (String × Component) × GuiProperties :=
  (doc.components.map (fun r => (r.id, jsonToComponent r)), doc.canvas)

/-- The hexadecimal digit characters produced by the JavaScript
Number.toString(16): 0-9 then lowercase a-f. -/
def hexDigit (n : ℕ) : Char :=
  if n < 10 then Char.ofNat (48 + n) else Char.ofNat (87 + n)

/-- The digit list of Number.toString(16): most significant digit first,
recursing on the quotient by 16. -/
def natToHexDigits (n : ℕ) : List Char :=
  if h : n < 16 then [hexDigit n]
  else natToHexDigits (n / 16) ++ [hexDigit (n % 16)]
termination_by n
decreasing_by exact Nat.div_lt_self (by omega) (by norm_num)

/-- Utils.rgbToHex of utils.js:
"#" + ((1 << 24) + (r << 16) + (g << 8) + b).toString(16).slice(1),
with the shifted summands written out as 16777216, 65536 and 256. -/
def rgbToHex (r g b : ℕ) : String :=
  String.mk ('#' :: (natToHexDigits (16777216 + r * 65536 + g * 256 + b)).drop 1)

/-- The character class [a-f\d] of the Utils.hexToRgb pattern with the
case-insensitive flag: decimal digits, lowercase a-f, uppercase A-F. -/
def isHexDigitChar (c : Char) : Bool :=
  decide ((48 ≤ c.toNat ∧ c.toNat ≤ 57) ∨ (97 ≤ c.toNat ∧ c.toNat ≤ 102)
    ∨ (65 ≤ c.toNat ∧ c.toNat ≤ 70))

/-- The value of one hexadecimal digit character under parseInt(s, 16). -/
def hexVal (c : Char) : ℕ :=
  if 48 ≤ c.toNat ∧ c.toNat ≤ 57 then c.toNat - 48
  else if 97 ≤ c.toNat ∧ c.toNat ≤ 102 then c.toNat - 87
  else c.toNat - 55

/-- The r/g/b record returned by Utils.hexToRgb. -/
structure Rgb where
  r : ℕ
  g : ℕ
  b : ℕ
  deriving Repr, DecidableEq

/-- The character-level body of Utils.hexToRgb: matches an optional leading
hash sign followed by exactly three pairs of hexadecimal digits
(case-insensitive), and parses each pair with parseInt(s, 16); any other
input yields null (none). -/
def hexToRgbChars (cs0 : List Char) : Option Rgb :=
  let cs := if cs0.head? = some '#' then cs0.tail else cs0
  match cs with
  | [c1, c2, c3, c4, c5, c6] =>
      if isHexDigitChar c1 && isHexDigitChar c2 && isHexDigitChar c3 &&
         isHexDigitChar c4 && isHexDigitChar c5 && isHexDigitChar c6 then
        some { r := 16 * hexVal c1 + hexVal c2,
               g := 16 * hexVal c3 + hexVal c4,
               b := 16 * hexVal c5 + hexVal c6 }
      else none
  | _ => none

/-- Utils.hexToRgb of utils.js, applied to the character sequence of the
input string. -/
def hexToRgb (hex : String) : Option Rgb :=
  hexToRgbChars hex.toList

/-- C1: normalizeValue returns 0 whenever the range max - min is non-positive
(the non-finite guards of the source are vacuous over the rationals);
otherwise it returns the ratio (value - min)/(max - min) clamped to the unit
interval, and in particular it maps min to 0 and max to 1 exactly whenever
max is strictly greater than min. -/
theorem C1_normalizeValue (value min max : ℚ) :
    (max - min ≤ 0 → normalizeValue value min max = 0)
    ∧ (0 < max - min →
        normalizeValue value min max
          = Min.min (Max.max ((value - min) / (max - min)) 0) 1)
    ∧ (min < max →
        normalizeValue min min max = 0 ∧ normalizeValue max min max = 1) := by
  refine ⟨fun h => ?_, fun h => ?_, fun h => ?_⟩
  · simp only [normalizeValue, if_pos h]
  · simp only [normalizeValue, if_neg (not_le.mpr h)]
  · have hr : (0 : ℚ) < max - min := by linarith
    constructor
    · simp only [normalizeValue, if_neg (not_le.mpr hr), sub_self, zero_div]
      simp
    · have hdiv : (max - min) / (max - min) = 1 := div_self (ne_of_gt hr)
      simp only [normalizeValue, if_neg (not_le.mpr hr), hdiv]
      simp

/-- Witness for C1 at concrete inputs: a degenerate range gives 0, and for the
range 1..5 the endpoints normalize to 0 and 1. -/
theorem C1_normalizeValue_witness :
    normalizeValue 7 3 3 = 0
    ∧ normalizeValue 1 1 5 = 0 ∧ normalizeValue 5 1 5 = 1 :=
  ⟨(C1_normalizeValue 7 3 3).1 (by norm_num),
   (C1_normalizeValue 0 1 5).2.2 (by norm_num)⟩

/-- A value clamped by max 0 (min A t) lies between 0 and A when 0 ≤ A. -/
lemma clampedBetween (A t : ℚ) (hA : 0 ≤ A) :
    0 ≤ Max.max 0 (Min.min A t) ∧ Max.max 0 (Min.min A t) ≤ A :=
  ⟨le_max_left _ _, max_le hA (min_le_left _ _)⟩

/-- C2 counterexample: two buttons both containing the click point (10, 10);
the button with key a was inserted first and the button with key b last, yet
the click selects a, not the last-inserted b. -/
theorem C2_counterexample :
    hitTest (createComponent "button" "a" 0 0) 10 10 = true
    ∧ hitTest (createComponent "button" "b" 0 0) 10 10 = true
    ∧ (onCanvasClick
        { components := [("a", createComponent "button" "a" 0 0),
                         ("b", createComponent "button" "b" 0 0)],
          selectedComponent := none } 1 10 10 0 0).selectedComponent = some "a"
    ∧ (onCanvasClick
        { components := [("a", createComponent "button" "a" 0 0),
                         ("b", createComponent "button" "b" 0 0)],
          selectedComponent := none } 1 10 10 0 0).selectedComponent
        ≠ some "b" := by
  have hb : ∀ (id : String) (x y : ℚ),
      createComponent "button" id x y = Button id x y := fun _ _ _ => rfl
  refine ⟨?_, ?_, ?_, ?_⟩
  · norm_num [hb, hitTest, Button, baseComponent]
  · norm_num [hb, hitTest, Button, baseComponent]
  · norm_num [hb, onCanvasClick, firstHitComponent, hitTest, pointerToCanvas,
      Button, baseComponent]
  · norm_num [hb, onCanvasClick, firstHitComponent, hitTest, pointerToCanvas,
      Button, baseComponent]
    decide

/-- C2 amended: the canvas click hit-test walks the insertion-ordered map and
breaks at the first match, so for a point contained in two or more
descriptors the selected descriptor is the first-inserted one containing the
point, not the last-inserted one. -/
theorem C2_first_inserted_wins :
    (∀ (s : Session) (zoom clientX clientY rectLeft rectTop : ℚ),
        (onCanvasClick s zoom clientX clientY rectLeft rectTop).selectedComponent
          = firstHitComponent s.components
              (pointerToCanvas zoom clientX rectLeft)
              (pointerToCanvas zoom clientY rectTop))
    ∧ (∀ (pre post : List (String × Component)) (id : String) (c : Component)
          (x y : ℚ),
        hitTest c x y = true →
        (∀ q ∈ pre, hitTest q.2 x y = false) →
        firstHitComponent (pre ++ (id, c) :: post) x y = some id) := by
  constructor
  · intro s zoom clientX clientY rectLeft rectTop
    simp only [onCanvasClick]
    cases h : firstHitComponent s.components
        (pointerToCanvas zoom clientX rectLeft)
        (pointerToCanvas zoom clientY rectTop) with
    | none => simp [h]
    | some id => simp [h]
  · intro pre post id c x y hhit hmiss
    induction pre with
    | nil => simp [firstHitComponent, hhit]
    | cons q rest ih =>
        obtain ⟨qid, qc⟩ := q
        have hq : hitTest qc x y = false :=
          hmiss ⟨qid, qc⟩ (List.mem_cons_self _ _)
        simp only [List.cons_append, firstHitComponent, hq, Bool.false_eq_true,
          if_false]
        exact ih fun p hp => hmiss p (List.mem_cons_of_mem _ hp)

/-- Witness for C2 amended: a button at (200, 200) inserted before a button at
the origin; the click at (10, 10) misses the first and selects the second. -/
theorem C2_first_inserted_wins_witness :
    firstHitComponent
      [("a", createComponent "button" "a" 200 200),
       ("b", createComponent "button" "b" 0 0)] 10 10 = some "b" :=
  C2_first_inserted_wins.2 [("a", createComponent "button" "a" 200 200)] []
    "b" (createComponent "button" "b" 0 0) 10 10
    (by norm_num [show createComponent "button" "b" 0 0 = Button "b" 0 0 from rfl,
          hitTest, Button, baseComponent])
    (by intro q hq; rw [List.mem_singleton] at hq; subst hq
        norm_num [show createComponent "button" "a" 200 200 = Button "a" 200 200 from rfl,
          hitTest, Button, baseComponent])

/-- C3: after a pointer move during an active drag, the dragged descriptor is
clamped to lie fully inside the canvas, for any pointer position, provided
its size does not exceed the canvas dimensions. -/
theorem C3_drag_clamp (props : GuiProperties) (dragOffset : ℚ × ℚ)
    (zoom clientX clientY rectLeft rectTop : ℚ) (c : Component)
    (hw : c.width ≤ props.width) (hh : c.height ≤ props.height) :
    0 ≤ (onCanvasMouseMove props dragOffset zoom clientX clientY rectLeft rectTop c).x
    ∧ 0 ≤ (onCanvasMouseMove props dragOffset zoom clientX clientY rectLeft rectTop c).y
    ∧ (onCanvasMouseMove props dragOffset zoom clientX clientY rectLeft rectTop c).x
        + (onCanvasMouseMove props dragOffset zoom clientX clientY rectLeft rectTop c).width
        ≤ props.width
    ∧ (onCanvasMouseMove props dragOffset zoom clientX clientY rectLeft rectTop c).y
        + (onCanvasMouseMove props dragOffset zoom clientX clientY rectLeft rectTop c).height
        ≤ props.height := by
  have hx := clampedBetween (props.width - c.width)
    (pointerToCanvas zoom clientX rectLeft - dragOffset.1) (by linarith)
  have hy := clampedBetween (props.height - c.height)
    (pointerToCanvas zoom clientY rectTop - dragOffset.2) (by linarith)
  simp only [onCanvasMouseMove]
  exact ⟨hx.1, hy.1, by linarith [hx.2], by linarith [hy.2]⟩

/-- Witness for C3: canvas 400 x 300, button of size 80 x 30 dragged to the
far off-canvas pointer position (1000, -50); the result stays inside. -/
theorem C3_drag_clamp_witness :
    (createComponent "button" "b" 0 0).width ≤ defaultGuiProperties.width
    ∧ (0 :ℚ) ≤ (onCanvasMouseMove defaultGuiProperties (0, 0) 1 1000 (-50) 0 0
        (createComponent "button" "b" 0 0)).x :=
  ⟨by decide,
   (C3_drag_clamp defaultGuiProperties (0, 0) 1 1000 (-50) 0 0
      (createComponent "button" "b" 0 0) (by decide) (by decide)).1⟩

/-- C4: deleting the selected descriptor removes its entry from the component
map and empties the selection; a confirmed canvas clear (posed only when the
map is non-empty) empties both the map and the selection. -/
theorem C4_delete_and_clear (s : Session) (id : String)
    (hsel : s.selectedComponent = some id) (hne : s.components ≠ []) :
    ((handleKeyboardDelete s).selectedComponent = none
      ∧ ∀ p ∈ (handleKeyboardDelete s).components, p.1 ≠ id)
    ∧ (clearCanvas s true).components = []
    ∧ (clearCanvas s true).selectedComponent = none := by
  refine ⟨⟨?_, ?_⟩, ?_, ?_⟩
  · simp [handleKeyboardDelete, hsel]
  · intro p hp
    simp only [handleKeyboardDelete, hsel] at hp
    have := List.of_mem_filter hp
    simpa using this
  · have hlen : 0 < s.components.length := List.length_pos.mpr hne
    simp [clearCanvas, hlen]
  · have hlen : 0 < s.components.length := List.length_pos.mpr hne
    simp [clearCanvas, hlen]

/-- Witness for C4: a one-button session with that button selected; deletion
empties the selection and the clear empties everything. -/
theorem C4_delete_and_clear_witness :
    (handleKeyboardDelete
      { components := [("a", createComponent "button" "a" 0 0)],
        selectedComponent := some "a" }).selectedComponent = none
    ∧ (clearCanvas
        { components := [("a", createComponent "button" "a" 0 0)],
          selectedComponent := some "a" } true).components = [] :=
  ⟨(C4_delete_and_clear
      { components := [("a", createComponent "button" "a" 0 0)],
        selectedComponent := some "a" } "a" rfl (by decide)).1.1,
   (C4_delete_and_clear
      { components := [("a", createComponent "button" "a" 0 0)],
        selectedComponent := some "a" } "a" rfl (by decide)).2.1⟩

/-- C6 counterexample: a horizontalslider (default width 120) dropped on the
default 400 x 300 canvas at pointer (380, 290) with zoom 1 gets x = 350,
which exceeds canvasWidth - defaultWidth = 280: the drop clamp uses the fixed
margins 50 and 30, not the default size of the dropped kind. -/
theorem C6_counterexample :
    (onCanvasDropPosition defaultGuiProperties 1 380 290 0 0).1 = 350
    ∧ (getDefaultSize "horizontalslider").1 = 120
    ∧ ¬ ((onCanvasDropPosition defaultGuiProperties 1 380 290 0 0).1
          ≤ defaultGuiProperties.width - (getDefaultSize "horizontalslider").1) := by
  refine ⟨?_, rfl, ?_⟩
  · norm_num [onCanvasDropPosition, pointerToCanvas, defaultGuiProperties]
  · norm_num [onCanvasDropPosition, pointerToCanvas, defaultGuiProperties,
      show (getDefaultSize "horizontalslider").1 = 120 from rfl]

/-- C6 amended: for every drop, the drop position passed to the Factory is the
zoom-converted pointer position clamped with the fixed margins 50 and 30 to
[0, canvasWidth - 50] x [0, canvasHeight - 30], independent of the default
size of the dropped kind (provided the canvas is at least 50 x 30). -/
theorem C6_drop_clamp_fixed_margins (props : GuiProperties)
    (zoom clientX clientY rectLeft rectTop : ℚ)
    (hw : 50 ≤ props.width) (hh : 30 ≤ props.height) :
    0 ≤ (onCanvasDropPosition props zoom clientX clientY rectLeft rectTop).1
    ∧ (onCanvasDropPosition props zoom clientX clientY rectLeft rectTop).1
        ≤ props.width - 50
    ∧ 0 ≤ (onCanvasDropPosition props zoom clientX clientY rectLeft rectTop).2
    ∧ (onCanvasDropPosition props zoom clientX clientY rectLeft rectTop).2
        ≤ props.height - 30 := by
  have hx := clampedBetween (props.width - 50)
    (pointerToCanvas zoom clientX rectLeft) (by linarith)
  have hy := clampedBetween (props.height - 30)
    (pointerToCanvas zoom clientY rectTop) (by linarith)
  exact ⟨hx.1, hx.2, hy.1, hy.2⟩

/-- Witness for C6 amended: on the default 400 x 300 canvas the drop position
for pointer (380, 290) stays at or below width - 50 = 350. -/
theorem C6_drop_clamp_fixed_margins_witness :
    (onCanvasDropPosition defaultGuiProperties 1 380 290 0 0).1
      ≤ defaultGuiProperties.width - 50 :=
  (C6_drop_clamp_fixed_margins defaultGuiProperties 1 380 290 0 0
    (by decide) (by decide)).2.1

/-- C7: a canvas-size update whose parsed width or height is non-numeric (NaN,
modelled as none) or below the minimum bounds is rejected and the prior
configuration is retained; in particular width 150 never changes the width. -/
theorem C7_invalid_canvas_size (props : GuiProperties)
    (widthInput heightInput : Option ℤ)
    (hbad : ∀ w h : ℤ, widthInput = some w → heightInput = some h →
      w < 200 ∨ h < 150) :
    updateCanvasSize props widthInput heightInput = props
    ∧ ∀ heightInput2 : Option ℤ,
        (updateCanvasSize props (some 150) heightInput2).width = props.width := by
  constructor
  · cases widthInput with
    | none => rfl
    | some w =>
        cases heightInput with
        | none => rfl
        | some h =>
            have hlt := hbad w h rfl rfl
            simp only [updateCanvasSize]
            rw [if_neg (by omega)]
  · intro heightInput2
    cases heightInput2 with
    | none => rfl
    | some h2 =>
        simp only [updateCanvasSize]
        rw [if_neg (by omega)]

/-- Witness for C7: setting the width to 150 with a valid height leaves the
default configuration untouched. -/
theorem C7_invalid_canvas_size_witness :
    updateCanvasSize defaultGuiProperties (some 150) (some 300)
      = defaultGuiProperties :=
  (C7_invalid_canvas_size defaultGuiProperties (some 150) (some 300)
    (fun w h hw hh => by
      injection hw with ew
      injection hh with eh
      omega)).1

/-- C8: for a kind tag outside the nine supported ones, createComponent does
not fail: it returns the base Component with the given id, kind, x and y,
width 80, height 30, text equal to the kind tag, the neutral base colors, and
no kind-specific extras. -/
theorem C8_unknown_kind (type id : String) (x y : ℚ)
    (h : type ∉ getSupportedTypes) :
    createComponent type id x y = baseComponent id type x y 80 30
    ∧ (createComponent type id x y).id = id
    ∧ (createComponent type id x y).type = type
    ∧ (createComponent type id x y).x = x
    ∧ (createComponent type id x y).y = y
    ∧ (createComponent type id x y).width = 80
    ∧ (createComponent type id x y).height = 30
    ∧ (createComponent type id x y).text = type
    ∧ (createComponent type id x y).color = "#CCCCCC"
    ∧ (createComponent type id x y).textColor = "#000000"
    ∧ (createComponent type id x y).extras = Extras.none := by
  simp only [getSupportedTypes, List.mem_cons, List.not_mem_nil, or_false,
    not_or] at h
  obtain ⟨h1, h2, h3, h4, h5, h6, h7, h8, h9⟩ := h
  have hc : createComponent type id x y = baseComponent id type x y 80 30 := by
    simp only [createComponent, if_neg h1, if_neg h2, if_neg h3, if_neg h4,
      if_neg h5, if_neg h6, if_neg h7, if_neg h8, if_neg h9]
  exact ⟨hc, by rw [hc]; rfl, by rw [hc]; rfl, by rw [hc]; rfl, by rw [hc]; rfl,
    by rw [hc]; rfl, by rw [hc]; rfl, by rw [hc]; rfl, by rw [hc]; rfl,
    by rw [hc]; rfl, by rw [hc]; rfl⟩

/-- Witness for C8: the tag webview is not one of the nine supported kinds and
degrades to the generic base descriptor. -/
theorem C8_unknown_kind_witness :
    "webview" ∉ getSupportedTypes
    ∧ createComponent "webview" "w1" 5 6 = baseComponent "w1" "webview" 5 6 80 30 :=
  ⟨by decide, (C8_unknown_kind "webview" "w1" 5 6 (by decide)).1⟩

/-- C9: the knob pointer angle is the normalized value mapped onto the 270
degree sweep, angle = norm * 1.5 pi - 0.75 pi radians; for the factory knob
(range [0, 1], value 0.5) the normalized value is 1/2 and the angle is
exactly 0 radians. -/
theorem C9_knob_pointer_angle :
    (∀ comp : Component,
        ((renderKnobAngle comp : ℚ) : ℝ) * Real.pi
          = ((normalizeValue comp.defaultValue comp.minValue comp.maxValue : ℚ) : ℝ)
              * (1.5 * Real.pi) - 0.75 * Real.pi)
    ∧ normalizeValue (createComponent "knob" "k1" 0 0).defaultValue
        (createComponent "knob" "k1" 0 0).minValue
        (createComponent "knob" "k1" 0 0).maxValue = 1 / 2
    ∧ ((renderKnobAngle (createComponent "knob" "k1" 0 0) : ℚ) : ℝ) * Real.pi
        = 0 := by
  have hknob : createComponent "knob" "k1" 0 0 = Knob "k1" 0 0 := rfl
  have hnorm : normalizeValue (Knob "k1" 0 0).defaultValue
      (Knob "k1" 0 0).minValue (Knob "k1" 0 0).maxValue = 1 / 2 := by
    norm_num [Knob, baseComponent, normalizeValue]
  refine ⟨fun comp => ?_, ?_, ?_⟩
  · rw [renderKnobAngle]
    push_cast
    ring
  · rw [hknob]
    exact hnorm
  · rw [hknob, renderKnobAngle, hnorm]
    norm_num

/-- Re-parsing the persisted entries reproduces a session map whose keys
match the stored descriptor ids. -/
lemma map_json_roundtrip (l : List (String × Component))
    (hkey : ∀ p ∈ l, p.1 = p.2.id) :
    (l.map (fun p => componentToJson p.2)).map
        (fun r => (r.id, jsonToComponent r)) = l := by
  induction l with
  | nil => rfl
  | cons p rest ih =>
      obtain ⟨k, c⟩ := p
      have hk : k = c.id := hkey ⟨k, c⟩ (List.mem_cons_self _ _)
      simp only [List.map_cons]
      rw [ih (fun q hq => hkey q (List.mem_cons_of_mem _ hq))]
      have h1 : (componentToJson c).id = c.id := rfl
      have h2 : jsonToComponent (componentToJson c) = c := rfl
      rw [h1, h2, hk]

/-- C5: exporting a session to the structured-interchange document and
reconstructing from it yields the descriptors and canvas configuration equal
to the originals in all persisted fields, for any session map whose keys are
the descriptor ids (as maintained by addComponentAtPosition). -/
theorem C5_json_roundtrip (components : List (String × Component))
    (props : GuiProperties)
    (hkey : ∀ p ∈ components, p.1 = p.2.id) :
    importFromJSON (exportToJSON components props) = (components, props) := by
  simp only [importFromJSON, exportToJSON]
  rw [map_json_roundtrip components hkey]

/-- Witness for C5: a three-descriptor session of mixed kinds round-trips
through the structured-interchange document unchanged. -/
theorem C5_json_roundtrip_witness :
    importFromJSON (exportToJSON
        [("h1", createComponent "horizontalslider" "h1" 10 20),
         ("k1", createComponent "knob" "k1" 30 40),
         ("b1", createComponent "button" "b1" 50 60)]
        defaultGuiProperties)
      = ([("h1", createComponent "horizontalslider" "h1" 10 20),
          ("k1", createComponent "knob" "k1" 30 40),
          ("b1", createComponent "button" "b1" 50 60)],
         defaultGuiProperties) :=
  C5_json_roundtrip _ defaultGuiProperties (by
    intro p hp
    simp only [List.mem_cons, List.not_mem_nil, or_false] at hp
    rcases hp with rfl | rfl | rfl <;> rfl)

/-- Each value below 16 is recovered by hexVal from its digit character, and
that character is in the hexadecimal character class. -/
lemma hexVal_hexDigit : ∀ m : ℕ, m < 16 →
    hexVal (hexDigit m) = m ∧ isHexDigitChar (hexDigit m) = true := by
  decide

/-- One unfolding step of the hexadecimal digit list for arguments of at
least two digits. -/
lemma natToHexDigits_step (n : ℕ) (h : 16 ≤ n) :
    natToHexDigits n = natToHexDigits (n / 16) ++ [hexDigit (n % 16)] := by
  rw [natToHexDigits]
  rw [dif_neg (by omega)]

/-- The hexadecimal digit list of 1. -/
lemma natToHexDigits_one : natToHexDigits 1 = ['1'] := by
  rw [natToHexDigits]
  rfl

/-- The hexadecimal digits of the packed color value 16777216 + r * 65536 +
g * 256 + b for 8-bit channels: a leading 1 followed by the three channel
digit pairs. -/
lemma natToHexDigits_rgb (r g b : ℕ) (hr : r ≤ 255) (hg : g ≤ 255)
    (hb : b ≤ 255) :
    natToHexDigits (16777216 + r * 65536 + g * 256 + b)
      = ['1', hexDigit (r / 16), hexDigit (r % 16), hexDigit (g / 16),
         hexDigit (g % 16), hexDigit (b / 16), hexDigit (b % 16)] := by
  have e0 : (16777216 + r * 65536 + g * 256 + b) % 16 = b % 16 := by omega
  have f0 : (16777216 + r * 65536 + g * 256 + b) / 16
      = 1048576 + r * 4096 + g * 16 + b / 16 := by omega
  have e1 : (1048576 + r * 4096 + g * 16 + b / 16) % 16 = b / 16 := by omega
  have f1 : (1048576 + r * 4096 + g * 16 + b / 16) / 16
      = 65536 + r * 256 + g := by omega
  have e2 : (65536 + r * 256 + g) % 16 = g % 16 := by omega
  have f2 : (65536 + r * 256 + g) / 16 = 4096 + r * 16 + g / 16 := by omega
  have e3 : (4096 + r * 16 + g / 16) % 16 = g / 16 := by omega
  have f3 : (4096 + r * 16 + g / 16) / 16 = 256 + r := by omega
  have e4 : (256 + r) % 16 = r % 16 := by omega
  have f4 : (256 + r) / 16 = 16 + r / 16 := by omega
  have e5 : (16 + r / 16) % 16 = r / 16 := by omega
  have f5 : (16 + r / 16) / 16 = 1 := by omega
  rw [natToHexDigits_step (16777216 + r * 65536 + g * 256 + b) (by omega),
    e0, f0]
  rw [natToHexDigits_step (1048576 + r * 4096 + g * 16 + b / 16) (by omega),
    e1, f1]
  rw [natToHexDigits_step (65536 + r * 256 + g) (by omega), e2, f2]
  rw [natToHexDigits_step (4096 + r * 16 + g / 16) (by omega), e3, f3]
  rw [natToHexDigits_step (256 + r) (by omega), e4, f4]
  rw [natToHexDigits_step (16 + r / 16) (by omega), e5, f5]
  rw [natToHexDigits_one]
  rfl

/-- C10: composing the two color-channel conversions of utils.js is the
identity on valid 8-bit channel values: hexToRgb (rgbToHex r g b) returns
exactly the record with channels r, g, b. -/
theorem C10_color_roundtrip (r g b : ℕ) (hr : r ≤ 255) (hg : g ≤ 255)
    (hb : b ≤ 255) :
    hexToRgb (rgbToHex r g b) = some { r := r, g := g, b := b } := by
  have i1 := (hexVal_hexDigit (r / 16) (by omega)).2
  have i2 := (hexVal_hexDigit (r % 16) (by omega)).2
  have i3 := (hexVal_hexDigit (g / 16) (by omega)).2
  have i4 := (hexVal_hexDigit (g % 16) (by omega)).2
  have i5 := (hexVal_hexDigit (b / 16) (by omega)).2
  have i6 := (hexVal_hexDigit (b % 16) (by omega)).2
  have v1 := (hexVal_hexDigit (r / 16) (by omega)).1
  have v2 := (hexVal_hexDigit (r % 16) (by omega)).1
  have v3 := (hexVal_hexDigit (g / 16) (by omega)).1
  have v4 := (hexVal_hexDigit (g % 16) (by omega)).1
  have v5 := (hexVal_hexDigit (b / 16) (by omega)).1
  have v6 := (hexVal_hexDigit (b % 16) (by omega)).1
  rw [rgbToHex, natToHexDigits_rgb r g b hr hg hb]
  show hexToRgbChars ('#' :: [hexDigit (r / 16), hexDigit (r % 16),
    hexDigit (g / 16), hexDigit (g % 16), hexDigit (b / 16),
    hexDigit (b % 16)]) = some { r := r, g := g, b := b }
  simp only [hexToRgbChars, List.head?_cons, List.tail_cons, if_pos,
    i1, i2, i3, i4, i5, i6, Bool.and_self, if_true]
  rw [v1, v2, v3, v4, v5, v6]
  simp only [Option.some.injEq, Rgb.mk.injEq]
  refine ⟨?_, ?_, ?_⟩ <;> omega

/-- Witness for C10 at the concrete channels (18, 52, 86). -/
theorem C10_color_roundtrip_witness :
    hexToRgb (rgbToHex 18 52 86) = some { r := 18, g := 52, b := 86 } :=
  C10_color_roundtrip 18 52 86 (by decide) (by decide) (by decide)
